import Mathlib

/-!
Verification of the skills/video analysis pipeline of SMART_CAREER_Singapore.

The development shallowly embeds the Python sources:
  * `backend/src/routes/chat.py`          — job tracker (start/poll state machine);
  * `backend/src/TavilyScp/tavily_web_s.py` — rate-limited client and JSON extractor;
  * `backend/src/youtube_agent/youtube.py`  — per-skill analyzer and orchestrator.

External collaborators (YouTube search, video details, transcript services, the
Gemini language model, the system clock, and Python's `json.loads`) are modelled
as oracle parameters; everything the repository itself computes is embedded as
executable Lean functions following the Python statement by statement.
-/

namespace SmartCareer

/-! ## Job tracker (`backend/src/routes/chat.py`) -/

/-- Embedding of the module-level `analysis_status` dictionary of `chat.py`.
`start_time` is present in the dictionary literal but never written anywhere. -/
structure JobStatus where
  status : String
  progress : Nat
  message : String
  result_file : Option String
  error : Option String
  start_time : Option String
  deriving Repr, DecidableEq

/-- The initial `analysis_status` dictionary of `chat.py`. -/
def initialStatus : JobStatus :=
  { status := "idle", progress := 0, message := "", result_file := none,
    error := none, start_time := none }

/-- Embedding of `update_analysis_status(status, progress=None, message="",
result_file=None, error=None)` from `chat.py`.  In the Python function every
optional argument is only written into the dictionary when it is not `None`
(`message` defaults to `""`, which is not `None`); `status` is always written. -/
def update_analysis_status (st : JobStatus) (status : String) (progress : Option Nat)
    (message : Option String) (result_file : Option String) (error : Option String) :
    JobStatus :=
  { st with
    status := status
    progress := match progress with | some p => p | none => st.progress
    message := match message with | some m => m | none => st.message
    result_file := match result_file with | some f => some f | none => st.result_file
    error := match error with | some e => some e | none => st.error }

/-- Response of the `/start-analysis` route: either the 400 rejection or the
JSON acknowledgement that a background thread was spawned. -/
inductive StartResp where
  | rejected (error : String)
  | started (message : String)
  deriving Repr, DecidableEq

/-- Embedding of the `start_analysis` route handler of `chat.py` (the part that
manipulates `analysis_status`; request decoding is the caller's concern).  When
the current status is `"running"` it returns the 400 error and touches nothing;
otherwise it resets the status via `update_analysis_status("running", progress=0,
message="Starting analysis...", result_file=None, error=None)` and spawns the
worker (signalled here by the `started` result). -/
def start_analysis (st : JobStatus) (skills : List String) : StartResp × JobStatus :=
  if st.status = "running" then
    (.rejected "Analysis is already running", st)
  else
    (.started ("Analysis started for: " ++ String.intercalate ", " skills),
     update_analysis_status st "running" (some 0) (some "Starting analysis...") none none)

/-- Outcome of `analysis_manager.run_comprehensive_analysis` as observed by
`run_analysis_workflow`: the manager mutates the shared status through its
progress callback (the `JobStatus → JobStatus` component) and then either
returns a result dictionary or raises.  A returned dictionary is abstracted to
the file path that `result.get("file_path") or result.get("result_file")`
extracts (`none` when the return value is not a dict or has no path). -/
inductive WorkerOutcome where
  | ok (resultPath : Option String)
  | exc (msg : String)

/-- Embedding of `run_analysis_workflow` from `chat.py`.  The `orchestrator`
oracle stands for the call to `analysis_manager.run_comprehensive_analysis`,
returning the status record as mutated by its callbacks together with its
outcome.  The `try` block first forces a fresh `running` state, then runs the
manager, then finalizes; the `except` block records the error with
`progress=0`. -/
def run_analysis_workflow (st0 : JobStatus)
    (orchestrator : JobStatus → JobStatus × WorkerOutcome) : JobStatus :=
  let st1 := update_analysis_status st0 "running" (some 5) (some "Starting analysis...")
    none none
  match orchestrator st1 with
  | (stMid, .exc msg) =>
      update_analysis_status stMid "error" (some 0) (some "Analysis failed.") none (some msg)
  | (stMid, .ok resultPath) =>
      let st2 :=
        match stMid.result_file, resultPath with
        | none, some rf => update_analysis_status stMid stMid.status none none (some rf) none
        | _, _ => stMid
      update_analysis_status st2 "completed" (some 100) (some "Analysis completed.") none none

/-! ## Rate-limited client (`backend/src/TavilyScp/tavily_web_s.py`) -/

/-- Outcome of one `self.gemini_model.generate_content(prompt)` attempt, as the
`try`/`except` ladder of `_call_gemini_with_retry` distinguishes them:
a successful response text, a `google.api_core.exceptions.ResourceExhausted`
(rate limit), or any other exception. -/
inductive LMAttempt where
  | success (text : String)
  | rateLimited
  | otherError
  deriving Repr, DecidableEq

/-- Loop body of `_call_gemini_with_retry`: `i` is the current value of the
loop variable, `remaining` the number of iterations `range(max_retries)` still
has.  Returns the string the Python function returns together with the list of
`time.sleep` durations performed, in order.  A rate-limit error sleeps
`initial_delay * (2 ** i)` and continues; any other error returns `""` at once;
an exhausted loop returns `""`. -/
def call_gemini_from (attempt : Nat → LMAttempt) (initial_delay : Nat) :
    Nat → Nat → String × List Nat
  | _, 0 => ("", [])
  | i, remaining + 1 =>
    match attempt i with
    | .success t => (t, [])
    | .otherError => ("", [])
    | .rateLimited =>
        let d := initial_delay * 2 ^ i
        let rest := call_gemini_from attempt initial_delay (i + 1) remaining
        (rest.1, d :: rest.2)

/-- Embedding of `_call_gemini_with_retry(prompt, max_retries=3, initial_delay=5)`.
The `attempt` oracle gives the outcome of the provider call on each iteration
(the prompt is fixed for the whole loop, so it is folded into the oracle). -/
def call_gemini_with_retry (attempt : Nat → LMAttempt) (max_retries initial_delay : Nat) :
    String × List Nat :=
  call_gemini_from attempt initial_delay 0 max_retries

/-! ## Structured-text parser: JSON extraction -/

/-- JSON values, the codomain of Python's `json.loads`. -/
inductive Json where
  | null
  | bool (b : Bool)
  | num (n : Int)
  | str (s : String)
  | arr (elems : List Json)
  | obj (fields : List (String × Json))

/-- Python `str.strip()` whitespace test: space, `\t`, `\n`, `\r`, `\x0b`, `\x0c`. -/
def isPySpace (c : Char) : Bool :=
  c = ' ' || c = '\t' || c = '\n' || c = '\r' || c = '\x0B' || c = '\x0C'

/-- Python `str.strip()` on a character list. -/
def pyStrip (l : List Char) : List Char :=
  ((l.dropWhile isPySpace).reverse.dropWhile isPySpace).reverse

/-- Python `str.strip()`. -/
def pyStripS (s : String) : String :=
  String.mk (pyStrip s.toList)

/-- The literal `` ```json\n `` that opens the fenced-block pattern of
`_extract_json_from_response`. -/
def fenceHeader : List Char :=
  String.toList "```json\n"

/-- The closing literal `` ``` `` of the fenced-block pattern. -/
def fenceCloseMark : List Char :=
  String.toList "```"

/-- Greedy capture for the tail of `re.search(r"```json\n(.*\n)```", s, re.DOTALL)`:
given the text after the opening fence, return the longest prefix that ends in a
newline immediately followed by `` ``` `` (the regex group `(.*\n)` is greedy, so
the match extends to the last such closing fence). -/
def fenceGroup : List Char → Option (List Char)
  | [] => none
  | x :: xs =>
    match fenceGroup xs with
    | some g => some (x :: g)
    | none =>
        if x = '\n' && fenceCloseMark.isPrefixOf xs then some [x] else none

/-- Leftmost-match search of `re.search(r"```json\n(.*\n)```", s, re.DOTALL)`:
try each start position from the left; at a position where the opening literal
matches, succeed iff a closing fence follows, with the greedy group. -/
def findFencedJson : List Char → Option (List Char)
  | [] => none
  | x :: xs =>
    if fenceHeader.isPrefixOf (x :: xs) then
      match fenceGroup ((x :: xs).drop fenceHeader.length) with
      | some g => some g
      | none => findFencedJson xs
    else findFencedJson xs

/-- Embedding of `_extract_json_from_response(response_text)`.  The `loads`
oracle is Python's `json.loads`, returning `none` on `JSONDecodeError`.  When
the fenced pattern matches, its (stripped) interior is parsed; otherwise the
whole text is parsed; every failure yields the empty object `{}` instead of an
exception. -/
def extract_json_from_response (loads : String → Option Json) (response_text : String) :
    Json :=
  match findFencedJson response_text.toList with
  | some g =>
      match loads (String.mk (pyStrip g)) with
      | some j => j
      | none => Json.obj []
  | none =>
      match loads response_text with
      | some j => j
      | none => Json.obj []

/-! ## Plain-text section parsers (`backend/src/youtube_agent/youtube.py`) -/

/-- Python `"pat" in s` substring containment on character lists. -/
def containsSub (pat : List Char) : List Char → Bool
  | [] => pat.isEmpty
  | x :: xs => pat.isPrefixOf (x :: xs) || containsSub pat xs

/-- Python `content.split("\n")`: split on every newline, keeping empty
pieces (`"".split("\n") == [""]`). -/
def splitLines : List Char → List (List Char)
  | [] => [[]]
  | c :: cs =>
    if c = '\n' then [] :: splitLines cs
    else
      match splitLines cs with
      | [] => [[c]]
      | h :: t => (c :: h) :: t

/-- Parser state of the response-parsing loop inside `analyze_skill_with_gemini`:
the four accumulator lists, the summary string being concatenated, and the four
`in_*` section flags. -/
structure SkillParseState where
  subskills : List String
  key_takeaways : List String
  important_info : List String
  summary : String
  in_subskills : Bool
  in_key_takeaways : Bool
  in_important_info : Bool
  in_summary : Bool
  deriving Repr, DecidableEq

/-- Initial state of the parsing loop (empty lists, empty summary, all flags
`False`). -/
def initSkillParse : SkillParseState :=
  { subskills := [], key_takeaways := [], important_info := [], summary := "",
    in_subskills := false, in_key_takeaways := false, in_important_info := false,
    in_summary := false }

/-- One iteration of the `for line in lines` loop of
`analyze_skill_with_gemini`: strip the line, switch sections on header
substrings (checked against the upper-cased line, in the `elif` order of the
source), accumulate `- ` bullets into the active list, and append non-empty
lines to the summary while in the SUMMARY section. -/
def skillParseStep (st : SkillParseState) (rawLine : List Char) : SkillParseState :=
  let line := pyStrip rawLine
  let u := line.map Char.toUpper
  if containsSub ("SUBSKILLS:".toList) u then
    { st with in_subskills := true, in_key_takeaways := false,
              in_important_info := false, in_summary := false }
  else if containsSub ("KEY_TAKEAWAYS:".toList) u then
    { st with in_subskills := false, in_key_takeaways := true,
              in_important_info := false, in_summary := false }
  else if containsSub ("IMPORTANT_INFO:".toList) u then
    { st with in_subskills := false, in_key_takeaways := false,
              in_important_info := true, in_summary := false }
  else if containsSub ("SUMMARY:".toList) u then
    { st with in_subskills := false, in_key_takeaways := false,
              in_important_info := false, in_summary := true }
  else if st.in_subskills && line.head? = some '-' then
    let subskill := pyStrip (line.drop 1)
    if subskill.isEmpty then st
    else { st with subskills := st.subskills ++ [String.mk subskill] }
  else if st.in_key_takeaways && line.head? = some '-' then
    let key_takeaway := pyStrip (line.drop 1)
    if key_takeaway.isEmpty then st
    else { st with key_takeaways := st.key_takeaways ++ [String.mk key_takeaway] }
  else if st.in_important_info && line.head? = some '-' then
    let info := pyStrip (line.drop 1)
    if info.isEmpty then st
    else { st with important_info := st.important_info ++ [String.mk info] }
  else if st.in_summary && !line.isEmpty then
    { st with summary := st.summary ++ String.mk line ++ " " }
  else st

/-- The response-parsing loop of `analyze_skill_with_gemini` applied to the
whole model response: split on `"\n"`, fold the loop body, and strip the
accumulated summary (the source passes `summary.strip()` to the constructor).
Returns `(subskills, key_takeaways, important_info, summary)`. -/
def parseSkillGeminiOutput (content : String) :
    List String × List String × List String × String :=
  let st := (splitLines content.toList).foldl skillParseStep initSkillParse
  (st.subskills, st.key_takeaways, st.important_info, pyStripS st.summary)

/-- Parser state of the loop inside `generate_comprehensive_analysis`. -/
structure SynthParseState where
  important_considerations : List String
  learning_path : List String
  in_considerations : Bool
  in_learning_path : Bool
  deriving Repr, DecidableEq

/-- Initial state of the synthesis-parsing loop. -/
def initSynthParse : SynthParseState :=
  { important_considerations := [], learning_path := [],
    in_considerations := false, in_learning_path := false }

/-- Does `re.match(r"^\d+\.", line)` succeed?  With a non-digit follower the
regex backtracking never helps, so the match succeeds exactly when the maximal
leading digit run is non-empty and immediately followed by `'.'`. -/
def matchesNumbered (line : List Char) : Bool :=
  let ds := line.takeWhile Char.isDigit
  !ds.isEmpty && (line.drop ds.length).head? = some '.'

/-- Result of `re.sub(r"^\d+\.\s*", "", line)` when `matchesNumbered line`:
drop the leading digits, the dot, and any following whitespace. -/
def stripNumberDot (line : List Char) : List Char :=
  ((line.dropWhile Char.isDigit).drop 1).dropWhile isPySpace

/-- One iteration of the `for line in lines` loop of
`generate_comprehensive_analysis`: section switching on header substrings,
`- ` bullets for considerations, `N.` numbered lines for the learning path. -/
def synthParseStep (st : SynthParseState) (rawLine : List Char) : SynthParseState :=
  let line := pyStrip rawLine
  let u := line.map Char.toUpper
  if containsSub ("IMPORTANT_CONSIDERATIONS:".toList) u then
    { st with in_considerations := true, in_learning_path := false }
  else if containsSub ("LEARNING_PATH:".toList) u then
    { st with in_considerations := false, in_learning_path := true }
  else if st.in_considerations && line.head? = some '-' then
    let consideration := pyStrip (line.drop 1)
    if consideration.isEmpty then st
    else { st with important_considerations :=
            st.important_considerations ++ [String.mk consideration] }
  else if st.in_learning_path && matchesNumbered line then
    let step := pyStrip (stripNumberDot line)
    if step.isEmpty then st
    else { st with learning_path := st.learning_path ++ [String.mk step] }
  else st

/-- The response-parsing loop of `generate_comprehensive_analysis` applied to
the whole model response.  Returns `(important_considerations, learning_path)`. -/
def parseSynthGeminiOutput (content : String) : List String × List String :=
  let st := (splitLines content.toList).foldl synthParseStep initSynthParse
  (st.important_considerations, st.learning_path)

/-! ## ISO-8601 duration parsing (`_parse_youtube_duration`) -/

/-- Numeric value of a run of decimal digit characters (Python `int`). -/
def digitsToNat (ds : List Char) : Nat :=
  ds.foldl (fun acc c => acc * 10 + (c.toNat - 48)) 0

/-- Embedding of `re.search(r"(\d+)c", s)` for a non-digit character `c` (the
source only uses `c ∈ {'H', 'M', 'S'}`): try each start position from the left;
at a position beginning with a digit, the greedy group is the maximal digit run
and the match succeeds exactly when that run is immediately followed by `c`
(backtracking into the run cannot help, because the follower would be a digit
and hence not `c`).  Returns the captured number. -/
def reSearchNumBefore (c : Char) : List Char → Option Nat
  | [] => none
  | x :: xs =>
    if x.isDigit then
      match (x :: xs).dropWhile Char.isDigit with
      | y :: _ =>
          if y = c then some (digitsToNat ((x :: xs).takeWhile Char.isDigit))
          else reSearchNumBefore c xs
      | [] => reSearchNumBefore c xs
    else reSearchNumBefore c xs

/-- Embedding of `_parse_youtube_duration(duration_iso)`: starting from 0, add
3600 times the `(\d+)H` capture, 60 times the `(\d+)M` capture, and the
`(\d+)S` capture, each only when its search succeeded. -/
def parse_youtube_duration (duration_iso : String) : Nat :=
  let l := duration_iso.toList
  let t0 := 0
  let t1 := match reSearchNumBefore 'H' l with
    | some n => t0 + n * 3600
    | none => t0
  let t2 := match reSearchNumBefore 'M' l with
    | some n => t1 + n * 60
    | none => t1
  match reSearchNumBefore 'S' l with
  | some n => t2 + n
  | none => t2

/-- A digit immediately followed by `c` occurs somewhere in `l` — the condition
under which `re.search(r"(\d+)c", l)` (for non-digit `c`) finds a match. -/
def HasDigitBefore (c : Char) (l : List Char) : Prop :=
  ∃ a d b, l = a ++ d :: c :: b ∧ d.isDigit

/-! ## Per-skill analyzer and orchestrator (`youtube.py`) -/

/-- Embedding of the `VideoContent` dataclass. -/
structure VideoContent where
  video_id : String
  title : String
  channel : String
  view_count : Nat
  duration : String
  transcript : String
  deriving Repr, DecidableEq

/-- Embedding of the `SkillAnalysis` dataclass. -/
structure SkillAnalysis where
  skill : String
  videos : List VideoContent
  subskills : List String
  key_takeaways : List String
  important_info : List String
  summary : String
  deriving Repr, DecidableEq

/-- Embedding of the `ComprehensiveAnalysis` dataclass. -/
structure ComprehensiveAnalysis where
  main_role : String
  skills_breakdown : List SkillAnalysis
  important_considerations : List String
  learning_path : List String
  created_at : String
  deriving Repr, DecidableEq

/-- Outcome of a Gemini `generate_content` call followed by reading
`response.text`: the response text, or an exception caught by the surrounding
`except` clause. -/
inductive LMResult where
  | success (text : String)
  | failure
  deriving Repr, DecidableEq

/-- One item of the YouTube search response, reduced to the field the source
reads (`item["id"]["videoId"]`). -/
structure VideoItem where
  videoId : String
  deriving Repr, DecidableEq

/-- The fields `process_single_skill` reads from a `get_video_details` response:
`snippet.title`, `snippet.channelTitle`, `statistics.viewCount` (via `int`, 0
when absent) and `contentDetails.duration` (default `"PT0S"`). -/
structure VideoDetails where
  title : String
  channel : String
  view_count : Nat
  duration_iso : String
  deriving Repr, DecidableEq

/-- Oracle bundle for the external collaborators of the pipeline: YouTube
search, the details endpoint (`none` models a failed fetch), transcript
extraction (`""` models total extraction failure), the two Gemini calls (their
prompts are deterministic functions of the shown arguments, so the oracles take
those arguments directly), and the `datetime.now().isoformat()` clock. -/
structure PipelineEnv where
  search : String → String → List VideoItem
  details : String → Option VideoDetails
  transcript : String → String
  skillLM : String → List VideoContent → LMResult
  synthLM : String → List SkillAnalysis → LMResult
  now : String

/-- Embedding of `analyze_skill_with_gemini(skill, video_contents)`: an empty
content list short-circuits to the "No video content available" record; an
exception from the model call yields the placeholder record; otherwise the
response is parsed by the section parser and the record is built from the
parsed fields, with the video list passed through. -/
def analyze_skill_with_gemini (lm : String → List VideoContent → LMResult)
    (skill : String) (video_contents : List VideoContent) : SkillAnalysis :=
  if video_contents.isEmpty then
    { skill := skill, videos := [], subskills := [], key_takeaways := [],
      important_info := [],
      summary := "No video content available for " ++ skill }
  else
    match lm skill video_contents with
    | .failure =>
        { skill := skill, videos := video_contents,
          subskills := ["Analysis failed - please review manually"],
          key_takeaways := ["Analysis failed - please review manually"],
          important_info := ["Analysis failed - please review manually"],
          summary := "Gemini analysis failed for " ++ skill ++
            ". Videos were processed successfully." }
    | .success content =>
        let parsed := parseSkillGeminiOutput content
        { skill := skill, videos := video_contents, subskills := parsed.1,
          key_takeaways := parsed.2.1, important_info := parsed.2.2.1,
          summary := parsed.2.2.2 }

/-- Embedding of the body of the `for item in video_items` loop of
`process_single_skill` for one item: a failed details fetch skips the item
(`continue`); otherwise the `VideoContent` is built with the formatted duration
`f"{s // 60}m {s % 60}s"` and the extracted transcript. -/
def buildVideoContent (env : PipelineEnv) (item : VideoItem) : Option VideoContent :=
  match env.details item.videoId with
  | none => none
  | some d =>
      let duration_seconds := parse_youtube_duration d.duration_iso
      some
        { video_id := item.videoId, title := d.title, channel := d.channel,
          view_count := d.view_count,
          duration := toString (duration_seconds / 60) ++ "m " ++
            toString (duration_seconds % 60) ++ "s",
          transcript := env.transcript item.videoId }

/-- Embedding of `process_single_skill(role, skill)`: search, short-circuit on
zero results with the "No content found" record, enrich each found item
(skipping failed detail fetches), then analyze with Gemini. -/
def process_single_skill (env : PipelineEnv) (role skill : String) : SkillAnalysis :=
  let video_items := env.search role skill
  if video_items.isEmpty then
    { skill := skill, videos := [], subskills := [], key_takeaways := [],
      important_info := [], summary := "No content found" }
  else
    let video_contents := video_items.filterMap (buildVideoContent env)
    analyze_skill_with_gemini env.skillLM skill video_contents

/-- Embedding of `generate_comprehensive_analysis(role, skill_analyses)`: an
empty input list yields the "No skills analyzed" record; an exception from the
model call yields the placeholder considerations/learning path while keeping
every `SkillAnalysis`; otherwise the response is parsed by the synthesis
parser. -/
def generate_comprehensive_analysis (env : PipelineEnv) (role : String)
    (skill_analyses : List SkillAnalysis) : ComprehensiveAnalysis :=
  if skill_analyses.isEmpty then
    { main_role := role, skills_breakdown := [],
      important_considerations := ["No skills analyzed"],
      learning_path := ["No learning path generated"], created_at := env.now }
  else
    match env.synthLM role skill_analyses with
    | .failure =>
        { main_role := role, skills_breakdown := skill_analyses,
          important_considerations := ["Comprehensive analysis failed"],
          learning_path := ["Learning path generation failed"],
          created_at := env.now }
    | .success content =>
        let parsed := parseSynthGeminiOutput content
        { main_role := role, skills_breakdown := skill_analyses,
          important_considerations := parsed.1, learning_path := parsed.2,
          created_at := env.now }

/-- Embedding of `run_analysis(role, skills)`: process every skill in input
order (the `for skill in skills` append loop), then aggregate.  The JSON file
written afterwards is `json.dump(asdict(...))` of exactly the returned record. -/
def run_analysis (env : PipelineEnv) (role : String) (skills : List String) :
    ComprehensiveAnalysis :=
  let skill_analyses := skills.map (process_single_skill env role)
  generate_comprehensive_analysis env role skill_analyses

/-- Embedding of the `except` clause of
`AnalysisManager.run_comprehensive_analysis` (`analysis_manager.py`): before
re-raising it invokes `progress_callback("error", 0, "", None, str(e))`, which
is `update_analysis_status` in the deployed wiring. -/
def manager_error_callback (st : JobStatus) (msg : String) : JobStatus :=
  update_analysis_status st "error" (some 0) (some "") none (some msg)

/-! ## Claims about the job tracker -/

/-- C2: a start request while `status` is `"running"` is rejected with the
explicit "already running" signal and leaves the status record untouched (no
new run begins); a start request from `"idle"`, `"completed"` or `"error"` is
acknowledged as started and transitions the record to `"running"` with
progress 0. -/
theorem start_analysis_transition (st : JobStatus) (skills : List String) :
    (st.status = "running" →
      start_analysis st skills = (.rejected "Analysis is already running", st)) ∧
    (st.status = "idle" ∨ st.status = "completed" ∨ st.status = "error" →
      (start_analysis st skills).1 =
        .started ("Analysis started for: " ++ String.intercalate ", " skills) ∧
      (start_analysis st skills).2.status = "running" ∧
      (start_analysis st skills).2.progress = 0) := by
  constructor
  · intro h
    simp [start_analysis, h]
  · intro h
    have hne : ¬ st.status = "running" := by
      rcases h with h | h | h <;> simp [h]
    simp [start_analysis, hne, update_analysis_status]

/-- Witness for `start_analysis_transition` at concrete states. -/
theorem start_analysis_transition_witness :
    start_analysis { initialStatus with status := "running" } ["SQL"] =
      (.rejected "Analysis is already running",
       { initialStatus with status := "running" }) ∧
    (start_analysis initialStatus ["SQL"]).2.status = "running" ∧
    (start_analysis initialStatus ["SQL"]).2.progress = 0 :=
  ⟨(start_analysis_transition { initialStatus with status := "running" } ["SQL"]).1 rfl,
   ((start_analysis_transition initialStatus ["SQL"]).2 (Or.inl rfl)).2.1,
   ((start_analysis_transition initialStatus ["SQL"]).2 (Or.inl rfl)).2.2⟩

/-- C3 (code bug): starting from an `"error"` state with a stale error string
and a stale result path, the accepted start sets `status`/`progress`/`message`
but leaves `error = "boom"` and `result_file = "old.json"` in place, because
`update_analysis_status` only writes `result_file`/`error` when the passed
value is not `None` while the reset call sites pass `None` intending to clear. -/
theorem start_analysis_stale_state_bug :
    start_analysis
      { status := "error", progress := 40, message := "Analysis failed.",
        result_file := some "old.json", error := some "boom", start_time := none }
      ["SQL"] =
    (.started "Analysis started for: SQL",
     { status := "running", progress := 0, message := "Starting analysis...",
       result_file := some "old.json", error := some "boom", start_time := none }) := by
  decide

/-- C4 counterexample: the orchestrator reports progress 80 (the "Running
YouTube agent..." milestone) and then raises `"boom"`; the recorded progress
after the error transition is 0, not the last reported value 80 — both the
manager's error callback and the `except` clause of `run_analysis_workflow`
pass `progress=0` explicitly. -/
theorem run_error_progress_counterexample :
    (run_analysis_workflow initialStatus
      (fun st =>
        (manager_error_callback
          (update_analysis_status st "running" (some 80)
            (some "Running YouTube agent...") none none) "boom",
         .exc "boom"))).progress = 0 ∧
    (run_analysis_workflow initialStatus
      (fun st =>
        (manager_error_callback
          (update_analysis_status st "running" (some 80)
            (some "Running YouTube agent...") none none) "boom",
         .exc "boom"))).status = "error" ∧
    (0 : Nat) ≠ 80 := by
  refine ⟨rfl, rfl, by decide⟩

/-- C4 (amended): whenever the orchestrator call raises, the workflow records
status `"error"`, the message `"Analysis failed."` and the exception string,
and resets progress to 0 regardless of the last reported value. -/
theorem run_analysis_workflow_error_sets (st0 stMid : JobStatus) (msg : String)
    (orch : JobStatus → JobStatus × WorkerOutcome)
    (h : orch (update_analysis_status st0 "running" (some 5)
      (some "Starting analysis...") none none) = (stMid, .exc msg)) :
    (run_analysis_workflow st0 orch).status = "error" ∧
    (run_analysis_workflow st0 orch).progress = 0 ∧
    (run_analysis_workflow st0 orch).message = "Analysis failed." ∧
    (run_analysis_workflow st0 orch).error = some msg := by
  simp only [run_analysis_workflow]
  rw [h]
  simp [update_analysis_status]

/-- Witness for `run_analysis_workflow_error_sets` at a concrete orchestrator. -/
theorem run_analysis_workflow_error_sets_witness :
    (run_analysis_workflow initialStatus (fun st => (st, .exc "oops"))).status = "error" ∧
    (run_analysis_workflow initialStatus (fun st => (st, .exc "oops"))).progress = 0 ∧
    (run_analysis_workflow initialStatus (fun st => (st, .exc "oops"))).message =
      "Analysis failed." ∧
    (run_analysis_workflow initialStatus (fun st => (st, .exc "oops"))).error =
      some "oops" :=
  run_analysis_workflow_error_sets initialStatus
    (update_analysis_status initialStatus "running" (some 5)
      (some "Starting analysis...") none none)
    "oops" (fun st => (st, .exc "oops")) rfl

/-! ## Claims about the rate-limited client -/

/-- C5: with the default parameters `max_retries=3`, `initial_delay=5`:
two rate-limit errors followed by a success return the successful text after
sleeping 5 then 10 time units; a non-rate-limit error on attempt `j` (after
only rate limits) aborts at once with `""`, having slept only the backoffs
already due; three rate-limit errors return `""` without raising. -/
theorem call_gemini_retry_behavior (attempt : Nat → LMAttempt) (t : String) (j : Nat) :
    (attempt 0 = .rateLimited → attempt 1 = .rateLimited → attempt 2 = .success t →
      call_gemini_with_retry attempt 3 5 = (t, [5, 10])) ∧
    (j < 3 → (∀ k, k < j → attempt k = .rateLimited) → attempt j = .otherError →
      call_gemini_with_retry attempt 3 5 =
        ("", (List.range j).map (fun k => 5 * 2 ^ k))) ∧
    ((∀ k, k < 3 → attempt k = .rateLimited) →
      (call_gemini_with_retry attempt 3 5).1 = "") := by
  refine ⟨?_, ?_, ?_⟩
  · intro h0 h1 h2
    simp [call_gemini_with_retry, call_gemini_from, h0, h1, h2]
  · intro hj hk hother
    interval_cases j
    · simp [call_gemini_with_retry, call_gemini_from, hother]
    · simp [call_gemini_with_retry, call_gemini_from, hk 0 (by omega), hother,
        List.range_succ]
    · simp [call_gemini_with_retry, call_gemini_from, hk 0 (by omega),
        hk 1 (by omega), hother, List.range_succ]
  · intro hk
    simp [call_gemini_with_retry, call_gemini_from, hk 0 (by omega),
      hk 1 (by omega), hk 2 (by omega)]

/-- Witness for `call_gemini_retry_behavior` on concrete attempt oracles. -/
theorem call_gemini_retry_behavior_witness :
    call_gemini_with_retry
      (fun i => if i < 2 then .rateLimited else .success "ok") 3 5 = ("ok", [5, 10]) ∧
    call_gemini_with_retry (fun _ => .otherError) 3 5 = ("", []) ∧
    (call_gemini_with_retry (fun _ => .rateLimited) 3 5).1 = "" := by
  refine ⟨(call_gemini_retry_behavior _ "ok" 0).1 rfl rfl rfl, ?_, ?_⟩
  · have h := (call_gemini_retry_behavior (fun _ => .otherError) "" 0).2.1
      (by omega) (fun k hk => absurd hk (by omega)) rfl
    simpa using h
  · exact (call_gemini_retry_behavior (fun _ => .rateLimited) "" 0).2.2
      (fun k _ => rfl)

/-! ## Claims about the JSON extractor -/

/-- C6: a fenced `json` block containing `["a","b"]` parses to exactly that
list; the bare text `["a","b"]` parses to the same list; and any text in which
neither the fenced-block search nor whole-text parsing succeeds yields the
empty object, without an exception reaching the caller (the function is total
by construction).  `loads` is Python's `json.loads` oracle. -/
theorem extract_json_behavior (loads : String → Option Json) :
    (loads "[\"a\",\"b\"]" = some (.arr [.str "a", .str "b"]) →
      extract_json_from_response loads "```json\n[\"a\",\"b\"]\n```" =
        .arr [.str "a", .str "b"]) ∧
    (loads "[\"a\",\"b\"]" = some (.arr [.str "a", .str "b"]) →
      extract_json_from_response loads "[\"a\",\"b\"]" = .arr [.str "a", .str "b"]) ∧
    (∀ t, findFencedJson t.toList = none → loads t = none →
      extract_json_from_response loads t = .obj []) ∧
    (∀ t g, findFencedJson t.toList = some g → loads (String.mk (pyStrip g)) = none →
      extract_json_from_response loads t = .obj []) := by
  refine ⟨?_, ?_, ?_, ?_⟩
  · intro h
    have hf : findFencedJson ("```json\n[\"a\",\"b\"]\n```".toList) =
        some ("[\"a\",\"b\"]\n".toList) := by decide
    have hs : String.mk (pyStrip ("[\"a\",\"b\"]\n".toList)) = "[\"a\",\"b\"]" := by decide
    simp only [extract_json_from_response, hf, hs, h]
  · intro h
    have hf : findFencedJson ("[\"a\",\"b\"]".toList) = none := by decide
    simp only [extract_json_from_response, hf, h]
  · intro t hf hl
    simp only [extract_json_from_response, hf, hl]
  · intro t g hf hl
    simp only [extract_json_from_response, hf, hl]

/-- A concrete stand-in for `json.loads` that recognizes the document used by
the C6 witness. -/
def loadsAB : String → Option Json := fun s =>
  if s = "[\"a\",\"b\"]" then some (.arr [.str "a", .str "b"]) else none

/-- Witness for `extract_json_behavior` on a concrete `loads` oracle. -/
theorem extract_json_behavior_witness :
    extract_json_from_response loadsAB "```json\n[\"a\",\"b\"]\n```" =
      .arr [.str "a", .str "b"] ∧
    extract_json_from_response loadsAB "[\"a\",\"b\"]" = .arr [.str "a", .str "b"] ∧
    extract_json_from_response loadsAB "total garbage" = .obj [] :=
  ⟨(extract_json_behavior loadsAB).1 rfl,
   (extract_json_behavior loadsAB).2.1 rfl,
   (extract_json_behavior loadsAB).2.2.1 "total garbage" (by decide) rfl⟩

/-! ## Claims about the plain-text section parser -/

/-- Does the (stripped, upper-cased) line contain one of the four header
labels recognized by the parsing loop of `analyze_skill_with_gemini`? -/
def isSkillHeaderLine (rawLine : List Char) : Bool :=
  let u := (pyStrip rawLine).map Char.toUpper
  containsSub ("SUBSKILLS:".toList) u || containsSub ("KEY_TAKEAWAYS:".toList) u ||
    containsSub ("IMPORTANT_INFO:".toList) u || containsSub ("SUMMARY:".toList) u

/-- A non-header line leaves the initial parser state (all section flags off)
unchanged: bullets and text before the first header are dropped. -/
theorem skillParseStep_init_of_not_header (l : List Char)
    (h : isSkillHeaderLine l = false) :
    skillParseStep initSkillParse l = initSkillParse := by
  simp [isSkillHeaderLine, Bool.or_eq_false_iff] at h
  obtain ⟨⟨⟨h1, h2⟩, h3⟩, h4⟩ := h
  simp [skillParseStep, initSkillParse, h1, h2, h3, h4]

/-- C7: the section parser of `analyze_skill_with_gemini` maps the response
`"SUBSKILLS:\n- X\n- Y\n\nSUMMARY:\nhello world"` to subskills `["X", "Y"]`,
empty takeaway/info lists, and summary `"hello world"`; and any prefix of
lines in which no header label occurs (in particular, bullet lines before the
first recognized section header) is dropped silently: the fold over
`p ++ rest` equals the fold over `rest` alone. -/
theorem skill_section_parsing (p rest : List (List Char)) :
    parseSkillGeminiOutput "SUBSKILLS:\n- X\n- Y\n\nSUMMARY:\nhello world" =
      (["X", "Y"], [], [], "hello world") ∧
    ((∀ l ∈ p, isSkillHeaderLine l = false) →
      (p ++ rest).foldl skillParseStep initSkillParse =
        rest.foldl skillParseStep initSkillParse) := by
  constructor
  · decide
  · intro hp
    induction p with
    | nil => rfl
    | cons a p ih =>
        have ha := hp a (List.mem_cons_self a p)
        have hp' : ∀ l ∈ p, isSkillHeaderLine l = false := fun l hl =>
          hp l (List.mem_cons_of_mem a hl)
        simpa [skillParseStep_init_of_not_header a ha] using ih hp'

/-- Witness for `skill_section_parsing`: a stray bullet line before the first
header does not change the parse. -/
theorem skill_section_parsing_witness :
    parseSkillGeminiOutput "SUBSKILLS:\n- X\n- Y\n\nSUMMARY:\nhello world" =
      (["X", "Y"], [], [], "hello world") ∧
    ["- dropped".toList, "SUBSKILLS:".toList, "- A".toList].foldl skillParseStep
        initSkillParse =
      ["SUBSKILLS:".toList, "- A".toList].foldl skillParseStep initSkillParse :=
  ⟨(skill_section_parsing [] []).1,
   (skill_section_parsing ["- dropped".toList] ["SUBSKILLS:".toList, "- A".toList]).2
     (by intro l hl; simp at hl; subst hl; decide)⟩

/-! ## Claims about the per-skill analyzer's failure handling -/

/-- A concrete enriched video used by counterexamples and witnesses. -/
def sampleVideo : VideoContent :=
  { video_id := "vid1", title := "Intro", channel := "Chan", view_count := 1000,
    duration := "10m 0s", transcript := "some transcript" }

/-- C8 counterexample: the model response `"no sections here"` is obtained
(no exception) and parses to zero subskills and zero takeaways, yet the
returned `SkillAnalysis` carries empty lists — not the single placeholder
entry the claim requires — while the video list is kept. -/
theorem analyze_skill_zero_parse_counterexample :
    parseSkillGeminiOutput "no sections here" = ([], [], [], "") ∧
    analyze_skill_with_gemini (fun _ _ => .success "no sections here") "SQL"
      [sampleVideo] =
      { skill := "SQL", videos := [sampleVideo], subskills := [],
        key_takeaways := [], important_info := [], summary := "" } ∧
    ([] : List String) ≠ ["Analysis failed - please review manually"] := by
  refine ⟨by decide, rfl, by decide⟩

/-- C8 (amended): the single placeholder entries are substituted exactly when
the model call raises; a successfully obtained response is parsed as-is, so a
complete parse failure yields empty derived lists (no placeholder), with the
video list kept intact in both cases. -/
theorem analyze_skill_result_modes (lm : String → List VideoContent → LMResult)
    (skill content : String) (videos : List VideoContent) :
    (videos ≠ [] → lm skill videos = .failure →
      analyze_skill_with_gemini lm skill videos =
        { skill := skill, videos := videos,
          subskills := ["Analysis failed - please review manually"],
          key_takeaways := ["Analysis failed - please review manually"],
          important_info := ["Analysis failed - please review manually"],
          summary := "Gemini analysis failed for " ++ skill ++
            ". Videos were processed successfully." }) ∧
    (videos ≠ [] → lm skill videos = .success content →
      analyze_skill_with_gemini lm skill videos =
        { skill := skill, videos := videos,
          subskills := (parseSkillGeminiOutput content).1,
          key_takeaways := (parseSkillGeminiOutput content).2.1,
          important_info := (parseSkillGeminiOutput content).2.2.1,
          summary := (parseSkillGeminiOutput content).2.2.2 }) := by
  constructor
  · intro hv hlm
    simp [analyze_skill_with_gemini, hv, hlm]
  · intro hv hlm
    simp [analyze_skill_with_gemini, hv, hlm]

/-- Witness for `analyze_skill_result_modes` on concrete oracles. -/
theorem analyze_skill_result_modes_witness :
    analyze_skill_with_gemini (fun _ _ => .failure) "SQL" [sampleVideo] =
      { skill := "SQL", videos := [sampleVideo],
        subskills := ["Analysis failed - please review manually"],
        key_takeaways := ["Analysis failed - please review manually"],
        important_info := ["Analysis failed - please review manually"],
        summary := "Gemini analysis failed for SQL" ++
          ". Videos were processed successfully." } ∧
    analyze_skill_with_gemini (fun _ _ => .success "SUBSKILLS:\n- A") "SQL"
      [sampleVideo] =
      { skill := "SQL", videos := [sampleVideo],
        subskills := (parseSkillGeminiOutput "SUBSKILLS:\n- A").1,
        key_takeaways := (parseSkillGeminiOutput "SUBSKILLS:\n- A").2.1,
        important_info := (parseSkillGeminiOutput "SUBSKILLS:\n- A").2.2.1,
        summary := (parseSkillGeminiOutput "SUBSKILLS:\n- A").2.2.2 } :=
  ⟨(analyze_skill_result_modes (fun _ _ => .failure) "SQL" "" [sampleVideo]).1
     (by decide) rfl,
   (analyze_skill_result_modes (fun _ _ => .success "SUBSKILLS:\n- A") "SQL"
     "SUBSKILLS:\n- A" [sampleVideo]).2 (by decide) rfl⟩

/-! ## Claims about the orchestrator -/

/-- The orchestrator always keeps exactly the collected per-skill analyses in
`skills_breakdown`, whichever branch (empty input, synthesis exception, or a
parsed response) is taken. -/
theorem generate_comprehensive_skills_breakdown (env : PipelineEnv) (role : String)
    (skill_analyses : List SkillAnalysis) :
    (generate_comprehensive_analysis env role skill_analyses).skills_breakdown =
      skill_analyses := by
  unfold generate_comprehensive_analysis
  by_cases h : skill_analyses.isEmpty
  · simp [h, List.isEmpty_iff.mp h]
  · simp only [h, Bool.false_eq_true, if_false]
    cases env.synthLM role skill_analyses <;> rfl

/-- A pipeline environment whose searches find nothing and whose model calls
raise; used by counterexamples and witnesses. -/
def emptyEnv : PipelineEnv :=
  { search := fun _ _ => [], details := fun _ => none, transcript := fun _ => "",
    skillLM := fun _ _ => .failure, synthLM := fun _ _ => .failure,
    now := "2026-01-01T00:00:00" }

/-- A concrete collected `SkillAnalysis` for counterexamples and witnesses. -/
def sampleAnalysis : SkillAnalysis :=
  { skill := "SQL", videos := [sampleVideo], subskills := ["joins"],
    key_takeaways := ["practice"], important_info := ["index"],
    summary := "summary text" }

/-- C9 counterexample: when the synthesis call returns the empty response
(no exception), the orchestrator returns empty `important_considerations` and
`learning_path` lists, not the single-entry placeholder lists the claim
requires; the collected analyses are retained. -/
theorem synthesis_empty_response_counterexample :
    generate_comprehensive_analysis
      { emptyEnv with synthLM := fun _ _ => .success "" } "Data Analyst"
      [sampleAnalysis] =
      { main_role := "Data Analyst", skills_breakdown := [sampleAnalysis],
        important_considerations := [], learning_path := [],
        created_at := "2026-01-01T00:00:00" } ∧
    ([] : List String) ≠ ["Comprehensive analysis failed"] := by
  refine ⟨rfl, by decide⟩

/-- C9 (amended): a synthesis-step failure never fails the run and every
collected `SkillAnalysis` is always retained; the placeholder single-entry
lists appear exactly when the synthesis call raises, while an empty response
yields empty (not placeholder) consideration and learning-path lists. -/
theorem comprehensive_failure_modes (env : PipelineEnv) (role : String)
    (skill_analyses : List SkillAnalysis) :
    (generate_comprehensive_analysis env role skill_analyses).skills_breakdown =
      skill_analyses ∧
    (skill_analyses ≠ [] → env.synthLM role skill_analyses = .failure →
      generate_comprehensive_analysis env role skill_analyses =
        { main_role := role, skills_breakdown := skill_analyses,
          important_considerations := ["Comprehensive analysis failed"],
          learning_path := ["Learning path generation failed"],
          created_at := env.now }) ∧
    (skill_analyses ≠ [] → env.synthLM role skill_analyses = .success "" →
      generate_comprehensive_analysis env role skill_analyses =
        { main_role := role, skills_breakdown := skill_analyses,
          important_considerations := [], learning_path := [],
          created_at := env.now }) := by
  refine ⟨generate_comprehensive_skills_breakdown env role skill_analyses, ?_, ?_⟩
  · intro hne hlm
    simp [generate_comprehensive_analysis, hne, hlm]
  · intro hne hlm
    simp [generate_comprehensive_analysis, hne, hlm, parseSynthGeminiOutput,
      initSynthParse, splitLines, synthParseStep, pyStrip, containsSub]

/-- Witness for `comprehensive_failure_modes` on concrete oracles. -/
theorem comprehensive_failure_modes_witness :
    (generate_comprehensive_analysis emptyEnv "Data Analyst" []).skills_breakdown =
      [] ∧
    generate_comprehensive_analysis emptyEnv "Data Analyst" [sampleAnalysis] =
      { main_role := "Data Analyst", skills_breakdown := [sampleAnalysis],
        important_considerations := ["Comprehensive analysis failed"],
        learning_path := ["Learning path generation failed"],
        created_at := "2026-01-01T00:00:00" } :=
  ⟨(comprehensive_failure_modes emptyEnv "Data Analyst" []).1,
   (comprehensive_failure_modes emptyEnv "Data Analyst" [sampleAnalysis]).2.1
     (by decide) rfl⟩

/-- Every branch of the per-skill pipeline labels its result with the
requested skill. -/
theorem process_single_skill_skill (env : PipelineEnv) (role skill : String) :
    (process_single_skill env role skill).skill = skill := by
  unfold process_single_skill analyze_skill_with_gemini
  by_cases h1 : (env.search role skill).isEmpty
  · simp [h1]
  · simp only [h1, Bool.false_eq_true, if_false]
    by_cases h2 : ((env.search role skill).filterMap (buildVideoContent env)).isEmpty
    · simp [h2]
    · simp only [h2, Bool.false_eq_true, if_false]
      cases env.skillLM skill ((env.search role skill).filterMap (buildVideoContent env))
        <;> rfl

/-- C1: a full run produces exactly one `SkillAnalysis` per input skill, in
input order (so `skills_breakdown` has the length of the input list and lists
the input skills in order); a skill whose search yields zero items contributes
the empty-content record rather than being omitted.  The persisted JSON file is
`json.dump(asdict(...))` of this same returned record. -/
theorem run_analysis_preserves_skill_list (env : PipelineEnv) (role : String)
    (skills : List String) :
    (run_analysis env role skills).skills_breakdown.length = skills.length ∧
    (run_analysis env role skills).skills_breakdown.map SkillAnalysis.skill =
      skills ∧
    (run_analysis env role skills).skills_breakdown =
      skills.map (process_single_skill env role) ∧
    (∀ skill, env.search role skill = [] →
      process_single_skill env role skill =
        { skill := skill, videos := [], subskills := [], key_takeaways := [],
          important_info := [], summary := "No content found" }) := by
  have hbd : (run_analysis env role skills).skills_breakdown =
      skills.map (process_single_skill env role) :=
    generate_comprehensive_skills_breakdown env role _
  refine ⟨?_, ?_, hbd, ?_⟩
  · rw [hbd, List.length_map]
  · rw [hbd, List.map_map]
    have : ∀ l : List String,
        l.map (SkillAnalysis.skill ∘ process_single_skill env role) = l := by
      intro l
      induction l with
      | nil => rfl
      | cons a t ih => simp [process_single_skill_skill, ih]
    exact this skills
  · intro skill hs
    simp [process_single_skill, hs]

/-- Witness for `run_analysis_preserves_skill_list` on a concrete environment
(all searches empty). -/
theorem run_analysis_preserves_skill_list_witness :
    (run_analysis emptyEnv "Data Analyst" ["SQL", "Python"]).skills_breakdown.map
      SkillAnalysis.skill = ["SQL", "Python"] ∧
    process_single_skill emptyEnv "Data Analyst" "SQL" =
      { skill := "SQL", videos := [], subskills := [], key_takeaways := [],
        important_info := [], summary := "No content found" } :=
  ⟨(run_analysis_preserves_skill_list emptyEnv "Data Analyst" ["SQL", "Python"]).2.1,
   (run_analysis_preserves_skill_list emptyEnv "Data Analyst" ["SQL", "Python"]).2.2.2
     "SQL" rfl⟩

/-! ## Claims about the duration parser -/

/-- Occurrences are stable under extending the list on the left. -/
theorem hasDigitBefore_cons (c x : Char) (xs : List Char)
    (h : HasDigitBefore c xs) : HasDigitBefore c (x :: xs) := by
  obtain ⟨a, d, b, heq, hd⟩ := h
  exact ⟨x :: a, d, b, by rw [heq]; rfl, hd⟩

/-- Soundness of the `re.search` embedding: a captured number only arises from
an actual digit-immediately-before-`c` occurrence in the list. -/
theorem reSearchNumBefore_sound (c : Char) :
    ∀ (l : List Char) (n : Nat),
      reSearchNumBefore c l = some n → HasDigitBefore c l := by
  intro l
  induction l with
  | nil => intro n h; simp [reSearchNumBefore] at h
  | cons x xs ih =>
      intro n h
      rw [reSearchNumBefore] at h
      split at h
      · split at h
        next y ys hd =>
          split at h
          next hy =>
            rw [hy] at hd
            have hx : x.isDigit = true := by assumption
            have htne : (x :: xs).takeWhile Char.isDigit ≠ [] := by
              rw [List.takeWhile_cons_of_pos hx]
              exact List.cons_ne_nil _ _
            refine ⟨((x :: xs).takeWhile Char.isDigit).dropLast,
              ((x :: xs).takeWhile Char.isDigit).getLast htne, ys, ?_, ?_⟩
            · calc x :: xs
                  = (x :: xs).takeWhile Char.isDigit ++
                    (x :: xs).dropWhile Char.isDigit :=
                      (List.takeWhile_append_dropWhile Char.isDigit (x :: xs)).symm
                _ = (((x :: xs).takeWhile Char.isDigit).dropLast ++
                    [((x :: xs).takeWhile Char.isDigit).getLast htne]) ++
                    (c :: ys) := by
                      rw [List.dropLast_append_getLast htne, hd]
                _ = ((x :: xs).takeWhile Char.isDigit).dropLast ++
                    ((x :: xs).takeWhile Char.isDigit).getLast htne :: c :: ys := by
                      simp
            · exact List.mem_takeWhile_imp (List.getLast_mem htne)
          next hy => exact hasDigitBefore_cons c x xs (ih n h)
        next hd => exact hasDigitBefore_cons c x xs (ih n h)
      · exact hasDigitBefore_cons c x xs (ih n h)

/-- Boolean scan deciding `HasDigitBefore`. -/
def hasDigitBeforeB (c : Char) : List Char → Bool
  | [] => false
  | [_] => false
  | d :: y :: rest => (d.isDigit && y == c) || hasDigitBeforeB c (y :: rest)

/-- Lists shorter than two characters have no occurrence. -/
theorem not_hasDigitBefore_short (c : Char) (l : List Char) (hl : l.length < 2) :
    ¬ HasDigitBefore c l := by
  rintro ⟨a, d, b, heq, -⟩
  have := congrArg List.length heq
  simp at this
  omega

/-- The boolean scan decides the declarative occurrence predicate. -/
theorem hasDigitBefore_iff (c : Char) :
    ∀ l : List Char, HasDigitBefore c l ↔ hasDigitBeforeB c l = true := by
  intro l
  induction l with
  | nil =>
      simp only [hasDigitBeforeB, Bool.false_eq_true, iff_false]
      exact not_hasDigitBefore_short c [] (by simp)
  | cons x xs ih =>
      cases xs with
      | nil =>
          simp only [hasDigitBeforeB, Bool.false_eq_true, iff_false]
          exact not_hasDigitBefore_short c [x] (by simp)
      | cons y rest =>
          constructor
          · rintro ⟨a, d, b, heq, hd⟩
            cases a with
            | nil =>
                simp only [List.nil_append, List.cons.injEq] at heq
                obtain ⟨hxd, hyc, -⟩ := heq
                subst hxd
                subst hyc
                simp [hasDigitBeforeB, hd]
            | cons a0 a' =>
                simp only [List.cons_append, List.cons.injEq] at heq
                obtain ⟨-, heq'⟩ := heq
                have : HasDigitBefore c (y :: rest) := ⟨a', d, b, heq', hd⟩
                simp [hasDigitBeforeB, ih.mp this]
          · intro h
            simp only [hasDigitBeforeB, Bool.or_eq_true, Bool.and_eq_true,
              beq_iff_eq] at h
            rcases h with ⟨hx, hyc⟩ | h
            · exact ⟨[], x, rest, by rw [hyc]; rfl, hx⟩
            · exact hasDigitBefore_cons c x (y :: rest) (ih.mpr h)

instance (c : Char) (l : List Char) : Decidable (HasDigitBefore c l) :=
  decidable_of_iff (hasDigitBeforeB c l = true) (hasDigitBefore_iff c l).symm

/-- C10: the duration parser is total (it is a Lean function into `Nat`, so it
never raises and its result is non-negative by type) and computes
`3600*H + 60*M + S` from the first-occurrence captures of `(\d+)H`, `(\d+)M`
and `(\d+)S`, each taken as 0 when its search fails; a capture only exists
when a digit immediately followed by the letter occurs in the string, so a
string with none of the three patterns parses to 0. -/
theorem duration_parsing_spec (s : String) :
    parse_youtube_duration s =
      3600 * (reSearchNumBefore 'H' s.toList).getD 0 +
        60 * (reSearchNumBefore 'M' s.toList).getD 0 +
        (reSearchNumBefore 'S' s.toList).getD 0 ∧
    (∀ c n, reSearchNumBefore c s.toList = some n → HasDigitBefore c s.toList) ∧
    (¬ HasDigitBefore 'H' s.toList → ¬ HasDigitBefore 'M' s.toList →
      ¬ HasDigitBefore 'S' s.toList → parse_youtube_duration s = 0) ∧
    0 ≤ parse_youtube_duration s := by
  have hnone : ∀ c : Char, ¬ HasDigitBefore c s.toList →
      reSearchNumBefore c s.toList = none := by
    intro c hc
    cases h : reSearchNumBefore c s.toList with
    | none => rfl
    | some n => exact absurd (reSearchNumBefore_sound c s.toList n h) hc
  have key : ∀ oh om os : Option Nat,
      (let t1 := match oh with | some n => 0 + n * 3600 | none => (0 : Nat)
       let t2 := match om with | some n => t1 + n * 60 | none => t1
       match os with | some n => t2 + n | none => t2) =
      3600 * oh.getD 0 + 60 * om.getD 0 + os.getD 0 := by
    intro oh om os
    cases oh <;> cases om <;> cases os <;> simp <;> omega
  have hformula : parse_youtube_duration s =
      3600 * (reSearchNumBefore 'H' s.toList).getD 0 +
        60 * (reSearchNumBefore 'M' s.toList).getD 0 +
        (reSearchNumBefore 'S' s.toList).getD 0 :=
    key (reSearchNumBefore 'H' s.toList) (reSearchNumBefore 'M' s.toList)
      (reSearchNumBefore 'S' s.toList)
  refine ⟨hformula, fun c n h => reSearchNumBefore_sound c s.toList n h, ?_,
    Nat.zero_le _⟩
  intro hH hM hS
  rw [hformula, hnone 'H' hH, hnone 'M' hM, hnone 'S' hS]
  rfl

/-- Witness for `duration_parsing_spec`: `"PT"` contains none of the patterns
and parses to 0, and the `'M'` capture in `"PT5M"` is witnessed by an actual
occurrence. -/
theorem duration_parsing_spec_witness :
    parse_youtube_duration "PT" = 0 ∧ HasDigitBefore 'M' ("PT5M".toList) :=
  ⟨(duration_parsing_spec "PT").2.2.1 (by decide) (by decide) (by decide),
   (duration_parsing_spec "PT5M").2.1 'M' 5 rfl⟩

end SmartCareer
